import Mathlib

/-!
Shallow embedding of `mu-docker-compose-handler` (src/mudrchandler/main.py)
and verification of the frozen claims about it.

The program is a small aiohttp service.  Its single source file defines an
`Application` with:
  * `run_command`            (main.py lines 47-71)
  * `handle_fetch_drc`       (lines 74-118, route POST /createdrc)
  * `ensure_stack_has_drc`   (lines 120-136)
  * `create_drc_db`          (lines 139-167)
  * `update_stack_drc`       (lines 170-202)
  * `docker_compose`         (lines 205-234)
  * `stack_inserted`         (lines 237-247)
  * `handle_delta_update`    (lines 250-284, route POST /update)

The graph database behind the SPARQL endpoint is modelled as an explicit
state (`GraphState`); the SPARQL query/update calls of the source become
functions on that state.  Python exceptions that escape a handler are
modelled with the `Except` error channel (`UncaughtExc`); aiohttp renders
such an escaped exception as a generic, unclassified 500 fault.
The `Stack` / `UUIDStack` / `URIStack` classes live in repository files that
are not part of the provided source tree, so their behaviour is modelled
from the spec (see `resolveStack`).
-/

/-- Python exceptions that can escape the handlers in this program.
`attributeError` is what `escape_string(None)` raises (a `None` manifest body
reaching `create_drc_db`); `fileNotFoundError` is what `open` raises when
`docker-compose.yml` is absent; `keyError` / `indexError` arise from the raw
subscripts `data['delta'][0]['inserts']`; `notFoundError` models the
spec-described failure of resolving an unknown stack node. -/
inductive UncaughtExc where
  | attributeError
  | fileNotFoundError
  | keyError (key : String)
  | indexError
  | typeError
  | notFoundError
  deriving DecidableEq, Repr

/-- JSON values, as delivered by `request.json()`. -/
inductive Json where
  | null
  | str (s : String)
  | num (n : Int)
  | arr (elems : List Json)
  | obj (fields : List (String × Json))

/-- Python subscript `j[key]` on a parsed JSON object: `KeyError` when the key
is absent, `TypeError` when the value is not a dict. -/
def jget : Json → String → Except UncaughtExc Json
  | .obj fields, key =>
      match fields.lookup key with
      | some v => .ok v
      | none => .error (.keyError key)
  | _, _ => .error .typeError

/-- Python subscript `j[i]` on a parsed JSON array: `IndexError` when out of
range, `TypeError` when the value is not a list. -/
def jindex : Json → Nat → Except UncaughtExc Json
  | .arr elems, i =>
      match elems[i]? with
      | some v => .ok v
      | none => .error .indexError
  | _, _ => .error .typeError

/-- Iterating a JSON value in a Python comprehension: only lists iterate as
element sequences here; anything else is a `TypeError` for this program's use. -/
def jlist : Json → Except UncaughtExc (List Json)
  | .arr elems => .ok elems
  | _ => .error .typeError

/-- Python `j == s` for a string literal `s`: equal only when `j` is that
string (comparison of a string with any other JSON type is `False`). -/
def jeqStr (j : Json) (s : String) : Bool :=
  match j with
  | .str t => t == s
  | _ => false

/-- Python truthiness of a JSON value (`if stack_uri:` in the source). -/
def jtruthy : Json → Bool
  | .null => false
  | .str s => !s.isEmpty
  | .num n => n != 0
  | .arr elems => !elems.isEmpty
  | .obj fields => !fields.isEmpty

/-! ## The graph state -/

/-- A Stack node in the application graph: its URI, its `mu:uuid`, and the git
coordinates the (spec-modelled) stack classes resolve for it. -/
structure StackNode where
  uri : String
  uuid : String
  location : String
  branch : String
  deriving DecidableEq, Repr

/-- A DockerCompose node as written by `create_drc_db` (main.py lines 149-166):
URI, `mu:uuid`, `stackbuilder:text` and `dct:title`. -/
structure Manifest where
  uri : String
  uuid : String
  text : String
  title : String
  deriving DecidableEq, Repr

/-- The application graph: Stack nodes, DockerCompose nodes, and the
`swarmui:dockerComposeFile` edges (subject URI, object URI). -/
structure GraphState where
  stackNodes : List StackNode
  manifests : List Manifest
  edges : List (String × String)
  deriving DecidableEq, Repr

/-- The world one request executes in: the graph plus counters of the external
effects issued so far (SPARQL queries, SPARQL updates, subprocess fetches). -/
structure World where
  graph : GraphState
  queries : Nat
  updates : Nat
  fetches : Nat
  deriving DecidableEq, Repr

/-- The `mu:uuid` triples present in the graph (both Stack and DockerCompose
nodes carry a uuid). -/
def uuidTriples (g : GraphState) : List (String × String) :=
  g.stackNodes.map (fun s => (s.uri, s.uuid)) ++ g.manifests.map (fun m => (m.uri, m.uuid))

/-- The ASK query of `ensure_stack_has_drc` (main.py lines 130-136): is there a
node `?s` carrying this `mu:uuid` that has a `swarmui:dockerComposeFile` edge? -/
def ensure_stack_has_drc (g : GraphState) (uuid : String) : Bool :=
  (uuidTriples g).any (fun n => n.2 == uuid && g.edges.any (fun e => e.1 == n.1))

/-! ## Constants of the source -/

def stackTypeIRI : String := "http://usefulinc.com/ns/doap#Stack"

def rdfTypeIRI : String := "http://www.w3.org/1999/02/22-rdf-syntax-ns#type"

/-- Stack URI construction of `update_stack_drc` (main.py line 179). -/
def stackUri (uuid : String) : String :=
  "http://swarm-ui.big-data-europe.eu/resources/stacks/" ++ uuid

/-- DockerCompose URI construction of `create_drc_db` (main.py line 148). -/
def drcUri (drc_uuid : String) : String :=
  "http://stack-builder.big-data-europe.eu/resources/docker-composes/" ++ drc_uuid

/-! ## run_command (main.py lines 47-71) -/

/-- What the external `git clone` subprocess does in one invocation: either it
finishes with an exit code before the timeout, or the timeout expires first. -/
inductive FetchResult where
  | exit (code : Int)
  | timeout
  deriving DecidableEq, Repr

/-- Result of `run_command`: the value of `process.returncode` it returns, and
whether `process.terminate()` was attempted. -/
structure RunResult where
  returncode : Option Int
  terminateAttempted : Bool
  deriving DecidableEq, Repr

/-- `run_command` (main.py lines 47-71): on completion it returns the exit
code; on `asyncio.TimeoutError` it attempts `process.terminate()` and falls
through to `return process.returncode`, which is still `None` because the
process was never awaited after the cancelled `communicate()`. -/
def run_command : FetchResult → RunResult
  | .exit code => { returncode := some code, terminateAttempted := false }
  | .timeout => { returncode := none, terminateAttempted := true }

/-- Python `cmd == 0` on an `Optional[int]` (main.py line 230): `None == 0` is
`False`. -/
def isZeroCode : Option Int → Bool
  | some code => code == 0
  | none => false

/-! ## Stack references (spec-modelled collaborators) -/

/-- The two stack variants handed to the workflow: `UUIDStack` built from the
`/createdrc` payload (identifier, location, branch known directly) and
`URIStack` built from a delta notification (only the graph-node address, as the
JSON value found by `stack_inserted`). -/
inductive StackRef where
  | resolved (uuid location branch : String)
  | unresolved (uri : Json)

/-- Resolved git coordinates of a stack. -/
structure StackInfo where
  uuid : String
  location : String
  branch : String
  deriving DecidableEq, Repr

/-- Modelled from the spec: the repository's `Stack`, `UUIDStack` and
`URIStack` classes (mudrchandler/stack.py, uuidstack.py, uristack.py) are not
in the provided source tree.  Per the spec, the resolved variant returns the
three fields supplied by the request payload without any graph lookup, and the
unresolved variant fetches all three fields by one memoized graph query keyed
by the node address, failing with `NotFoundError` when no node matches. -/
def resolveStack (g : GraphState) : StackRef → Except UncaughtExc StackInfo
  | .resolved uuid location branch => .ok { uuid := uuid, location := location, branch := branch }
  | .unresolved j =>
      match j with
      | .str uri =>
          match g.stackNodes.find? (fun n => n.uri == uri) with
          | some n => .ok { uuid := n.uuid, location := n.location, branch := n.branch }
          | none => .error .notFoundError
      | _ => .error .notFoundError

/-- Number of SPARQL queries the first (memoized) resolution of a stack issues:
none for `UUIDStack`, one for `URIStack`. -/
def resolveQueryCount : StackRef → Nat
  | .resolved _ _ _ => 0
  | .unresolved _ => 1

/-- The external environment of one fetch: what the `git clone` subprocess
does, and the content of `docker-compose.yml` in the cloned workspace
(`none` when the file is absent). -/
structure FetchEnv where
  clone : FetchResult
  compose_file : Option String
  deriving DecidableEq, Repr

/-! ## The workflow (main.py lines 139-234) -/

/-- `docker_compose` (main.py lines 205-234): resolve the stack's uuid, ask
whether it already has a manifest linked; if not, run `git clone`; on exit
code 0 read `docker-compose.yml` (raising `FileNotFoundError` when absent).
Every other path returns `None`.  The returned `World` records the query and
fetch effects; the graph itself is never modified here. -/
def docker_compose (w : World) (env : FetchEnv) (st : StackRef) :
    Except UncaughtExc (World × Option String) :=
  match resolveStack w.graph st with
  | .error exc => .error exc
  | .ok info =>
      let w2 : World := { w with queries := w.queries + resolveQueryCount st + 1 }
      if ensure_stack_has_drc w2.graph info.uuid then
        .ok (w2, none)
      else
        let w3 : World := { w2 with fetches := w2.fetches + 1 }
        if isZeroCode (run_command env.clone).returncode then
          match env.compose_file with
          | some text => .ok (w3, some text)
          | none => .error .fileNotFoundError
        else
          .ok (w3, none)

/-- `create_drc_db` (main.py lines 139-167): `escape_string(drc)` raises
`AttributeError` when `drc` is `None` (before any update is sent); otherwise a
fresh DockerCompose node is inserted by one SPARQL update and its URI
returned.  `drc_uuid` stands for the `uuid1().hex` value generated there. -/
def create_drc_db (w : World) (drc : Option String) (stack_uuid drc_uuid : String) :
    Except UncaughtExc (World × String) :=
  match drc with
  | none => .error .attributeError
  | some text =>
      let uri := drcUri drc_uuid
      let m : Manifest :=
        { uri := uri, uuid := drc_uuid, text := text,
          title := "stack_" ++ stack_uuid ++ "_drc_" ++ drc_uuid }
      .ok ({ w with
              graph := { w.graph with manifests := w.graph.manifests ++ [m] },
              updates := w.updates + 1 },
           uri)

/-- `update_stack_drc` (main.py lines 170-202): one combined SPARQL request
that deletes every `swarmui:dockerComposeFile` edge whose subject is the
constructed stack URI and inserts the edge to the new manifest. -/
def update_stack_drc (w : World) (drc_uri : String) (stack_uuid : String) : World :=
  let su := stackUri stack_uuid
  { w with
      graph := { w.graph with
        edges := w.graph.edges.filter (fun e => e.1 != su) ++ [(su, drc_uri)] },
      updates := w.updates + 1 }

/-! ## HTTP responses -/

/-- The responses this program can produce (a raised `web.HTTPException` is an
HTTP response too): the success envelope, the conflict envelope raised as
`HTTPInternalServerError` with the stack uuid in its detail, the plain
`"whatever"` acknowledgement, and `HTTPBadRequest` for unparseable JSON. -/
inductive HttpResponse where
  | success
  | conflict (stack_uuid : String)
  | ack
  | badRequest
  deriving DecidableEq, Repr

/-- HTTP status code of each response. -/
def HttpResponse.status : HttpResponse → Nat
  | .success => 200
  | .conflict _ => 500
  | .ack => 200
  | .badRequest => 400

/-! ## stack_inserted (main.py lines 237-247) -/

/-- The list comprehension of `stack_inserted`: for each insert, evaluate
`elem['o']['value']`, compare with the Stack type IRI, then
`elem['p']['value']` against `rdf:type`, and collect `elem['s']['value']` of
every qualifying element, in input order. -/
def stack_subjects : List Json → Except UncaughtExc (List Json)
  | [] => .ok []
  | e :: rest =>
      match jget e "o" with
      | .error exc => .error exc
      | .ok oNode =>
          match jget oNode "value" with
          | .error exc => .error exc
          | .ok oVal =>
              if jeqStr oVal stackTypeIRI then
                match jget e "p" with
                | .error exc => .error exc
                | .ok pNode =>
                    match jget pNode "value" with
                    | .error exc => .error exc
                    | .ok pVal =>
                        if jeqStr pVal rdfTypeIRI then
                          match jget e "s" with
                          | .error exc => .error exc
                          | .ok sNode =>
                              match jget sNode "value" with
                              | .error exc => .error exc
                              | .ok sVal =>
                                  match stack_subjects rest with
                                  | .error exc => .error exc
                                  | .ok tail => .ok (sVal :: tail)
                        else stack_subjects rest
              else stack_subjects rest

/-- `stack_inserted` (main.py lines 237-247): first collected subject, or
`None` when the comprehension is empty. -/
def stack_inserted (inserts : List Json) : Except UncaughtExc (Option Json) :=
  match stack_subjects inserts with
  | .error exc => .error exc
  | .ok subs => .ok subs.head?

/-! ## The two request handlers -/

/-- `handle_fetch_drc` (main.py lines 74-118), with the payload fields already
extracted into the resolved stack reference.  `docker_compose` runs outside
the `try`; the `try` around `create_drc_db` / `update_stack_drc` catches only
`AttributeError`, turning it into the raised conflict envelope. -/
def handle_fetch_drc (w : World) (env : FetchEnv)
    (uuid location branch drc_uuid : String) :
    Except UncaughtExc (World × HttpResponse) :=
  match docker_compose w env (.resolved uuid location branch) with
  | .error exc => .error exc
  | .ok (w1, dc) =>
      match create_drc_db w1 dc uuid drc_uuid with
      | .error .attributeError => .ok (w1, .conflict uuid)
      | .error exc => .error exc
      | .ok (w2, uri) => .ok (update_stack_drc w2 uri uuid, .success)

/-- `handle_delta_update` (main.py lines 250-284): parse the body (unparseable
JSON becomes `HTTPBadRequest`), take `data['delta'][0]['inserts']` with raw
subscripts, filter with `stack_inserted`, and when a truthy subject is found
run the same workflow on a `URIStack`; only `AttributeError` is caught and
mapped to the raised conflict envelope. -/
def handle_delta_update (w : World) (env : FetchEnv) (body : Option Json)
    (drc_uuid : String) : Except UncaughtExc (World × HttpResponse) :=
  match body with
  | none => .ok (w, .badRequest)
  | some data =>
      match jget data "delta" with
      | .error exc => .error exc
      | .ok deltaVal =>
          match jindex deltaVal 0 with
          | .error exc => .error exc
          | .ok firstDelta =>
              match jget firstDelta "inserts" with
              | .error exc => .error exc
              | .ok insertsVal =>
                  match jlist insertsVal with
                  | .error exc => .error exc
                  | .ok inserts =>
                      match stack_inserted inserts with
                      | .error exc => .error exc
                      | .ok subjectOpt =>
                          match subjectOpt with
                          | some subject =>
                              if jtruthy subject then
                                match docker_compose w env (.unresolved subject) with
                                | .error exc => .error exc
                                | .ok (w1, dc) =>
                                    match resolveStack w1.graph (.unresolved subject) with
                                    | .error exc => .error exc
                                    | .ok info =>
                                        match create_drc_db w1 dc info.uuid drc_uuid with
                                        | .error .attributeError => .ok (w1, .conflict info.uuid)
                                        | .error exc => .error exc
                                        | .ok (w2, uri) =>
                                            .ok (update_stack_drc w2 uri info.uuid, .success)
                              else .ok (w, .ack)
                          | none => .ok (w, .ack)

/-! ## Query texts (escaping behaviour of the source, main.py lines 130-202) -/

/-- Characters rewritten by aiosparql's `escape_string` (backslash-escaped
inside a quoted SPARQL string literal). -/
def needsEscape (c : Char) : Bool :=
  c == '"' || c == '\\' || c == '\n' || c == '\r' || c == '\t'

/-- aiosparql `escape_string`: wrap the value in double quotes, backslash
escaping the characters that would end or break the literal. -/
def escape_string (s : String) : String :=
  "\"" ++ String.join (s.data.map (fun c =>
    if needsEscape c then "\\" ++ String.singleton c else String.singleton c)) ++ "\""

/-- The application graph IRI substituted for the template's graph slot. -/
def appGraph : String := "<http://mu.semte.ch/application>"

/-- Query text of `ensure_stack_has_drc` (main.py lines 130-135): the uuid is
passed through `escape_string`. -/
def ensure_query (uuid : String) : String :=
  "ASK FROM " ++ appGraph ++ " WHERE \x7b " ++
  "?s <http://mu.semte.ch/vocabularies/core/uuid> " ++ escape_string uuid ++ " . " ++
  "?s <http://swarmui.semte.ch/vocabularies/core/dockerComposeFile> ?x . \x7d"

/-- Update text of `create_drc_db` (main.py lines 149-166): `drc_uuid`, the
manifest text and the title are passed through `escape_string`, but the
manifest URI is interpolated raw inside angle brackets. -/
def create_drc_db_query (stack_uuid drc_uuid drc : String) : String :=
  "PREFIX dct: <http://purl.org/dc/terms/> " ++
  "PREFIX mu: <http://mu.semte.ch/vocabularies/core/> " ++
  "PREFIX stackbuilder: <http://stackbuilder.semte.ch/vocabularies/core/> " ++
  "INSERT DATA \x7b GRAPH " ++ appGraph ++ " \x7b " ++
  "<" ++ drcUri drc_uuid ++ "> a stackbuilder:DockerCompose. " ++
  "<" ++ drcUri drc_uuid ++ "> mu:uuid " ++ escape_string drc_uuid ++ ". " ++
  "<" ++ drcUri drc_uuid ++ "> stackbuilder:text " ++ escape_string drc ++ ". " ++
  "<" ++ drcUri drc_uuid ++ "> dct:title " ++
    escape_string ("stack_" ++ stack_uuid ++ "_drc_" ++ drc_uuid) ++ ". \x7d \x7d"

/-- Update text of `update_stack_drc` (main.py lines 180-202): both the stack
URI (which embeds the request-supplied stack uuid, line 179) and the manifest
URI are interpolated raw, with no escaping at all. -/
def update_stack_drc_query (stack_uri drc_uri : String) : String :=
  "PREFIX swarmui: <http://swarmui.semte.ch/vocabularies/core/> " ++
  "DELETE \x7b GRAPH " ++ appGraph ++ " \x7b <" ++ stack_uri ++
    "> swarmui:dockerComposeFile ?s. \x7d \x7d " ++
  "WHERE \x7b GRAPH " ++ appGraph ++ " \x7b OPTIONAL \x7b <" ++ stack_uri ++
    "> swarmui:dockerComposeFile ?s. \x7d \x7d \x7d; " ++
  "INSERT DATA \x7b GRAPH " ++ appGraph ++ " \x7b <" ++ stack_uri ++
    "> swarmui:dockerComposeFile <" ++ drc_uri ++ ">. \x7d \x7d"

/-- Number of IRI opening delimiters in a query text: a proxy for the query's
token structure, which must not depend on interpolated data values. -/
def countLt (s : String) : Nat := s.data.countP (fun c => c == '<')

/-! ## Derived views of the graph used by the claims -/

/-- The `swarmui:dockerComposeFile` edges whose subject is the given stack URI. -/
def edgesFor (g : GraphState) (stack_uri : String) : List (String × String) :=
  g.edges.filter (fun e => e.1 == stack_uri)

/-- The invariant of spec section 3: at most one manifest edge per stack. -/
def atMostOneEdge (g : GraphState) : Prop :=
  ∀ s : String, (edgesFor g s).length ≤ 1

/-- The manifests the given stack URI is linked to by an edge. -/
def manifestsLinked (g : GraphState) (stack_uri : String) : List Manifest :=
  g.manifests.filter (fun m => g.edges.any (fun e => e.1 == stack_uri && e.2 == m.uri))

/-- A triple `(subject, predicate, object)` qualifies for `stack_inserted`
when its object is the Stack type and its predicate is `rdf:type`, in the
evaluation order of the source's comprehension condition. -/
def qualifies (t : String × String × String) : Bool :=
  t.2.2 == stackTypeIRI && t.2.1 == rdfTypeIRI

/-- The JSON shape of one inserted triple in a delta notification. -/
def mkTriple (t : String × String × String) : Json :=
  .obj [("s", .obj [("value", .str t.1)]),
        ("p", .obj [("value", .str t.2.1)]),
        ("o", .obj [("value", .str t.2.2)])]

/-- A well-shaped delta body around the given inserted triples. -/
def mkDeltaBody (inserts : List Json) : Json :=
  .obj [("delta", .arr [.obj [("inserts", .arr inserts)]])]

/-! ## Concrete fixtures used by witnesses and counterexamples -/

/-- An empty graph in a fresh world. -/
def demoWorld : World :=
  { graph := { stackNodes := [], manifests := [], edges := [] },
    queries := 0, updates := 0, fetches := 0 }

/-- A benign fetch environment. -/
def demoEnv : FetchEnv := { clone := .exit 0, compose_file := some "services:" }

/-- A stack node that already has a manifest linked. -/
def linkedStack : StackNode :=
  { uri := "http://example.org/stacks/s1", uuid := "u1",
    location := "http://example.org/repo.git", branch := "master" }

/-- The manifest already linked to `linkedStack`. -/
def linkedManifest : Manifest :=
  { uri := drcUri "d0", uuid := "d0", text := "services:", title := "stack_u1_drc_d0" }

/-- A graph in which `linkedStack` already has its manifest edge. -/
def linkedGraph : GraphState :=
  { stackNodes := [linkedStack], manifests := [linkedManifest],
    edges := [("http://example.org/stacks/s1", drcUri "d0")] }

/-- The world holding `linkedGraph`, before any request effect. -/
def linkedWorld : World :=
  { graph := linkedGraph, queries := 0, updates := 0, fetches := 0 }

/-- A delta body inserting the triple that declares `linkedStack` a Stack. -/
def stackInsertBody : Json :=
  mkDeltaBody [mkTriple ("http://example.org/stacks/s1", rdfTypeIRI, stackTypeIRI)]

/-- A stack node with no manifest linked, whose URI follows the documented
layout `.../resources/stacks/uuid`. -/
def unlinkedStack : StackNode :=
  { uri := stackUri "u2", uuid := "u2",
    location := "http://example.org/repo.git", branch := "master" }

/-- A graph holding only the unlinked stack. -/
def unlinkedGraph : GraphState :=
  { stackNodes := [unlinkedStack], manifests := [], edges := [] }

/-- The world holding `unlinkedGraph`, before any request effect. -/
def unlinkedWorld : World :=
  { graph := unlinkedGraph, queries := 0, updates := 0, fetches := 0 }

/-! ## Helper lemmas -/

/-- The comprehension of `stack_inserted`, run over well-shaped triples,
collects exactly the subjects of the qualifying triples in input order. -/
theorem stack_subjects_map (ts : List (String × String × String)) :
    stack_subjects (ts.map mkTriple) =
      .ok ((ts.filter qualifies).map (fun t => Json.str t.1)) := by
  induction ts with
  | nil => rfl
  | cons a ts ih =>
      cases ho : a.2.2 == stackTypeIRI with
      | false =>
          simp [stack_subjects, mkTriple, jget, jeqStr, List.lookup, qualifies, ho,
                List.filter_cons, ih]
      | true =>
          cases hp : a.2.1 == rdfTypeIRI with
          | false =>
              simp [stack_subjects, mkTriple, jget, jeqStr, List.lookup, qualifies, ho, hp,
                    List.filter_cons, ih]
          | true =>
              simp [stack_subjects, mkTriple, jget, jeqStr, List.lookup, qualifies, ho, hp,
                    List.filter_cons, ih]

/-- The head of a filtered list is the first element satisfying the predicate. -/
theorem head?_filter_eq_find? {α : Type} (p : α → Bool) (l : List α) :
    (l.filter p).head? = l.find? p := by
  induction l with
  | nil => rfl
  | cons a l ih =>
      cases h : p a <;> simp [List.filter_cons, List.find?_cons, h, ih]

/-- The ASK of `ensure_stack_has_drc` answers true as soon as some node
carries the uuid and has an outgoing manifest edge. -/
theorem ensure_true_of_edge (g : GraphState) (uuid nuri : String)
    (hn : (nuri, uuid) ∈ uuidTriples g)
    (e : String × String) (heMem : e ∈ g.edges) (heFst : e.1 = nuri) :
    ensure_stack_has_drc g uuid = true := by
  have hedge : (g.edges.any (fun e2 => e2.1 == (nuri, uuid).1)) = true := by
    rw [List.any_eq_true]
    exact ⟨e, heMem, by simp [heFst]⟩
  unfold ensure_stack_has_drc
  rw [List.any_eq_true]
  exact ⟨(nuri, uuid), hn, by rw [Bool.and_eq_true]; exact ⟨by simp, hedge⟩⟩

/-- Filtering twice never yields more elements than filtering once with the
outer predicate. -/
theorem length_filter_filter_le {α : Type} (p q : α → Bool) (l : List α) :
    ((l.filter q).filter p).length ≤ (l.filter p).length := by
  rw [List.filter_filter]
  induction l with
  | nil => simp
  | cons a l ih =>
      cases hp : p a with
      | false => simp [List.filter_cons, hp, ih]
      | true =>
          cases hq : q a with
          | false =>
              simp only [List.filter_cons, hp, hq, Bool.and_false, Bool.and_true,
                cond_false, cond_true, if_true, if_false]
              exact Nat.le_succ_of_le ih
          | true => simp [List.filter_cons, hp, hq, Nat.succ_le_succ ih]

/-! ## Claim C3 -/

/-- Claim C3: for every sequence of inserted triples, `stack_inserted` returns
the subject of the first (in input order) triple whose predicate is `rdf:type`
and whose object is the Stack type, and returns none when no triple in the
sequence qualifies; triples with other predicates or objects are ignored. -/
theorem stack_inserted_first_qualifying (ts : List (String × String × String)) :
    stack_inserted (ts.map mkTriple) =
      .ok ((ts.find? qualifies).map (fun t => Json.str t.1)) := by
  simp only [stack_inserted]
  rw [stack_subjects_map]
  simp only [List.head?_map, head?_filter_eq_find?]

/-! ## Claim C10 -/

/-- Claim C10: syntactically valid JSON bodies that lack the key `delta`, have
an empty `delta` list, or whose first delta element lacks `inserts`, make
`handle_delta_update` raise an uncaught `KeyError` or `IndexError` (the error
channel here) instead of producing any documented response. -/
theorem delta_malformed_bodies_raise :
    handle_delta_update demoWorld demoEnv (some (.obj [])) "d1" =
      .error (.keyError "delta") ∧
    handle_delta_update demoWorld demoEnv (some (.obj [("delta", .arr [])])) "d1" =
      .error .indexError ∧
    handle_delta_update demoWorld demoEnv (some (.obj [("delta", .arr [.obj []])])) "d1" =
      .error (.keyError "inserts") :=
  ⟨rfl, rfl, rfl⟩

/-! ## Claim C8 -/

set_option maxRecDepth 16384

/-- Claim C8 is violated by the source: `update_stack_drc` interpolates the
stack URI (line 179 builds it directly from the request-supplied stack uuid)
and the manifest URI into the update text with no escaping, so an adversarial
uuid changes the token structure of the query.  With a benign uuid the update
text has 8 IRI opening delimiters; a uuid carrying angle brackets makes 14. -/
theorem relink_query_structure_altered :
    countLt (update_stack_drc_query (stackUri "abc") (drcUri "d1")) = 8 ∧
    countLt (update_stack_drc_query
      (stackUri "abc> <urn:evil> <urn:x") (drcUri "d1")) = 14 := by
  constructor <;> decide

/-! ## Claim C9 -/

/-- Claim C9: a change-notification body whose inserted triples contain no
qualifying Stack insert makes the handler perform no graph query, no fetch and
no graph update (the returned world is the input world, counters included),
and it responds with the plain acknowledgement. -/
theorem no_stack_insert_is_noop (w : World) (env : FetchEnv) (drc_uuid : String)
    (ts : List (String × String × String))
    (h : ∀ t ∈ ts, qualifies t = false) :
    handle_delta_update w env (some (mkDeltaBody (ts.map mkTriple))) drc_uuid =
      .ok (w, .ack) := by
  have hfind : ts.find? qualifies = none :=
    List.find?_eq_none.mpr (fun x hx => by simp [h x hx])
  have hins : stack_inserted (ts.map mkTriple) = .ok none := by
    rw [stack_inserted_first_qualifying, hfind]; rfl
  simp [handle_delta_update, mkDeltaBody, jget, jindex, jlist, List.lookup, hins]

/-- Witness for C9 at a concrete battery of unrelated triples. -/
theorem no_stack_insert_is_noop_witness :
    handle_delta_update demoWorld demoEnv
      (some (mkDeltaBody ([("http://example.org/a", "http://example.org/p", "http://example.org/b")].map mkTriple)))
      "d1" = .ok (demoWorld, .ack) :=
  no_stack_insert_is_noop demoWorld demoEnv "d1"
    [("http://example.org/a", "http://example.org/p", "http://example.org/b")]
    (by decide)

/-! ## Claim C5 -/

/-- Claim C5 (amended): on an accepted JSON body, every response
`handle_delta_update` returns (rather than an uncaught exception) is the
success envelope, the acknowledgement, or the conflict envelope; the conflict
envelope is delivered by raising `HTTPInternalServerError`, so its HTTP status
is 500, not 200 as the claim states. -/
theorem delta_accepted_status (w : World) (env : FetchEnv) (j : Json)
    (drc_uuid : String) (w2 : World) (r : HttpResponse)
    (h : handle_delta_update w env (some j) drc_uuid = .ok (w2, r)) :
    r = .success ∨ r = .ack ∨ ∃ d, r = .conflict d := by
  simp only [handle_delta_update] at h
  repeat' split at h
  all_goals try simp_all
  all_goals (obtain ⟨-, hr⟩ := h; exact Or.inr (Or.inr ⟨_, hr.symm⟩))

/-- Witness for C5 on a well-shaped body with no relevant insert. -/
theorem delta_accepted_status_witness :
    HttpResponse.ack = .success ∨ HttpResponse.ack = .ack ∨
      ∃ d, HttpResponse.ack = .conflict d :=
  delta_accepted_status demoWorld demoEnv (mkDeltaBody []) "d1" demoWorld .ack rfl

/-- Counterexample to C5 as stated: a documented-shape body whose Stack is
already linked makes the handler raise the conflict envelope with HTTP status
500, not 200. -/
theorem delta_conflict_is_500 :
    handle_delta_update linkedWorld demoEnv (some stackInsertBody) "d1" =
      .ok ({ linkedWorld with queries := 2 }, .conflict "u1") ∧
    HttpResponse.status (.conflict "u1") = 500 :=
  ⟨rfl, rfl⟩

/-! ## Claim C2 -/

/-- Claim C2 (amended): when the clone subprocess exits nonzero, the workflow
aborts before any graph write — the returned world has the input graph and
update counter unchanged (only the ASK query and the fetch happened) — but the
outcome it reports is the raised conflict envelope `Stack already has
DockerCompose`, not a fetch-failure outcome. -/
theorem fetch_failure_aborts_without_writes (w : World) (env : FetchEnv)
    (uuid location branch drc_uuid : String) (code : Int)
    (hclone : env.clone = .exit code) (hcode : code ≠ 0)
    (hnolink : ensure_stack_has_drc w.graph uuid = false) :
    handle_fetch_drc w env uuid location branch drc_uuid =
      .ok ({ w with queries := w.queries + 1, fetches := w.fetches + 1 },
           .conflict uuid) := by
  simp [handle_fetch_drc, docker_compose, resolveStack, resolveQueryCount, hclone,
        hnolink, run_command, isZeroCode, hcode, create_drc_db]

/-- Witness for the amended C2 at a concrete unlinked stack. -/
theorem fetch_failure_aborts_without_writes_witness :
    handle_fetch_drc unlinkedWorld { clone := .exit 1, compose_file := none }
      "u2" "http://example.org/repo.git" "master" "d1" =
      .ok ({ unlinkedWorld with
             queries := unlinkedWorld.queries + 1,
             fetches := unlinkedWorld.fetches + 1 }, .conflict "u2") :=
  fetch_failure_aborts_without_writes unlinkedWorld
    { clone := .exit 1, compose_file := none }
    "u2" "http://example.org/repo.git" "master" "d1" 1 rfl (by decide) (by decide)

/-- Counterexample to C2 as stated: a failed fetch (exit code 128) is answered
with the conflict envelope (`.conflict`, the raised 500 `Stack already has
DockerCompose` body), not with any fetch-failure outcome naming the reason. -/
theorem fetch_failure_reported_as_conflict :
    handle_fetch_drc unlinkedWorld { clone := .exit 128, compose_file := none }
      "u2" "http://example.org/repo.git" "master" "d1" =
      .ok ({ unlinkedWorld with queries := 1, fetches := 1 }, .conflict "u2") :=
  rfl

/-! ## Claim C6 -/

/-- Claim C6 (amended): when the clone exits 0 but `docker-compose.yml` is
absent, the `FileNotFoundError` raised by `open` escapes `handle_fetch_drc`
uncaught (the error channel here), surfacing as an unclassified fault instead
of the manifest-not-found failure outcome the claim describes; it is not
silently swallowed, and nothing is written to the graph. -/
theorem missing_manifest_uncaught (w : World) (env : FetchEnv)
    (uuid location branch drc_uuid : String)
    (hclone : env.clone = .exit 0) (hfile : env.compose_file = none)
    (hnolink : ensure_stack_has_drc w.graph uuid = false) :
    handle_fetch_drc w env uuid location branch drc_uuid =
      .error .fileNotFoundError := by
  simp [handle_fetch_drc, docker_compose, resolveStack, hclone, hfile, hnolink,
        run_command, isZeroCode]

/-- Witness for the amended C6 at a concrete unlinked stack. -/
theorem missing_manifest_uncaught_witness :
    handle_fetch_drc unlinkedWorld { clone := .exit 0, compose_file := none }
      "u2" "http://example.org/repo.git" "dev" "d1" = .error .fileNotFoundError :=
  missing_manifest_uncaught unlinkedWorld { clone := .exit 0, compose_file := none }
    "u2" "http://example.org/repo.git" "dev" "d1" rfl rfl (by decide)

/-- Counterexample to C6 as stated: the missing manifest file surfaces as the
uncaught `FileNotFoundError` — an unclassified fault, not a classified
manifest-not-found outcome. -/
theorem missing_manifest_unclassified_fault :
    handle_fetch_drc unlinkedWorld { clone := .exit 0, compose_file := none }
      "u2" "http://example.org/repo.git" "master" "d1" =
      .error .fileNotFoundError :=
  rfl

/-! ## Claim C7 -/

/-- Claim C7 (amended): when the fetch times out, `run_command` attempts
`process.terminate()` and does not wait for it, and no manifest is persisted
(the graph and update counter are unchanged); but because the unreaped
process's `returncode` is `None`, the workflow reports the raised conflict
envelope, not a timeout-failure outcome. -/
theorem timeout_terminates_without_writes (w : World) (env : FetchEnv)
    (uuid location branch drc_uuid : String)
    (hclone : env.clone = .timeout)
    (hnolink : ensure_stack_has_drc w.graph uuid = false) :
    (run_command env.clone).terminateAttempted = true ∧
    handle_fetch_drc w env uuid location branch drc_uuid =
      .ok ({ w with queries := w.queries + 1, fetches := w.fetches + 1 },
           .conflict uuid) := by
  constructor
  · rw [hclone]; rfl
  · simp [handle_fetch_drc, docker_compose, resolveStack, resolveQueryCount, hclone,
          hnolink, run_command, isZeroCode, create_drc_db]

/-- Witness for the amended C7 at a concrete unlinked stack. -/
theorem timeout_terminates_without_writes_witness :
    (run_command ({ clone := .timeout, compose_file := none } : FetchEnv).clone).terminateAttempted = true ∧
    handle_fetch_drc unlinkedWorld { clone := .timeout, compose_file := none }
      "u2" "http://example.org/repo.git" "master" "d1" =
      .ok ({ unlinkedWorld with
             queries := unlinkedWorld.queries + 1,
             fetches := unlinkedWorld.fetches + 1 }, .conflict "u2") :=
  timeout_terminates_without_writes unlinkedWorld { clone := .timeout, compose_file := none }
    "u2" "http://example.org/repo.git" "master" "d1" rfl (by decide)

/-- Counterexample to C7 as stated: the timed-out fetch is answered with the
conflict envelope, not with a timeout-failure outcome. -/
theorem timeout_reported_as_conflict :
    handle_fetch_drc unlinkedWorld { clone := .timeout, compose_file := none }
      "u2" "http://example.org/repo.git" "dev" "d1" =
      .ok ({ unlinkedWorld with queries := 1, fetches := 1 }, .conflict "u2") :=
  rfl

/-! ## Claim C4 -/

/-- After the combined delete-and-insert of the relink update, the edges whose
subject is the relinked stack URI are exactly the freshly inserted edge. -/
theorem filter_eq_after_relink (l : List (String × String)) (su du : String) :
    (l.filter (fun e => e.1 != su) ++ [(su, du)]).filter (fun e => e.1 == su) =
      [(su, du)] := by
  rw [List.filter_append]
  have h1 : (l.filter (fun e => e.1 != su)).filter (fun e => e.1 == su) = [] := by
    rw [List.filter_eq_nil_iff]
    intro a ha
    rw [List.mem_filter] at ha
    have h2 := ha.2
    simp only [bne_iff_ne, ne_eq] at h2
    simp [h2]
  rw [h1]
  simp

/-- Claim C4: `update_stack_drc` issues one combined update that
unconditionally deletes any existing edge for the stack and inserts the new
edge: afterwards the stack's edges are exactly the new one, and the
at-most-one-edge-per-stack invariant is preserved. -/
theorem relink_single_update_unique_edge (w : World) (drc_uri stack_uuid : String)
    (hinv : atMostOneEdge w.graph) :
    (update_stack_drc w drc_uri stack_uuid).updates = w.updates + 1 ∧
    edgesFor (update_stack_drc w drc_uri stack_uuid).graph (stackUri stack_uuid) =
      [(stackUri stack_uuid, drc_uri)] ∧
    atMostOneEdge (update_stack_drc w drc_uri stack_uuid).graph := by
  refine ⟨rfl, ?_, ?_⟩
  · simp only [update_stack_drc, edgesFor]
    exact filter_eq_after_relink w.graph.edges (stackUri stack_uuid) drc_uri
  · intro s
    by_cases hs : s = stackUri stack_uuid
    · subst hs
      have h := filter_eq_after_relink w.graph.edges (stackUri stack_uuid) drc_uri
      simp only [update_stack_drc, edgesFor, h]
      simp
    · have hne : ((stackUri stack_uuid, drc_uri).1 == s) = false := by
        simp only [beq_eq_false_iff_ne, ne_eq]
        exact fun hEq => hs hEq.symm
      have h2 : edgesFor (update_stack_drc w drc_uri stack_uuid).graph s =
          (w.graph.edges.filter (fun e => e.1 != stackUri stack_uuid)).filter
            (fun e => e.1 == s) := by
        simp only [update_stack_drc, edgesFor, List.filter_append]
        simp [List.filter_cons, hne]
      calc (edgesFor (update_stack_drc w drc_uri stack_uuid).graph s).length
          = ((w.graph.edges.filter (fun e => e.1 != stackUri stack_uuid)).filter
              (fun e => e.1 == s)).length := by rw [h2]
        _ ≤ (w.graph.edges.filter (fun e => e.1 == s)).length :=
            length_filter_filter_le _ _ _
        _ ≤ 1 := hinv s

/-- Witness for C4 on the unlinked demo world. -/
theorem relink_single_update_unique_edge_witness :
    (update_stack_drc unlinkedWorld (drcUri "d1") "u2").updates =
      unlinkedWorld.updates + 1 ∧
    edgesFor (update_stack_drc unlinkedWorld (drcUri "d1") "u2").graph
      (stackUri "u2") = [(stackUri "u2", drcUri "d1")] ∧
    atMostOneEdge (update_stack_drc unlinkedWorld (drcUri "d1") "u2").graph :=
  relink_single_update_unique_edge unlinkedWorld (drcUri "d1") "u2"
    (fun s => by simp [edgesFor, unlinkedWorld, unlinkedGraph])

/-! ## Claim C1 -/

/-- Claim C1: starting from a stack with no manifest linked (and whose node
follows the documented URI layout), running the provisioning workflow twice in
sequence returns the success envelope first and the raised conflict envelope
second (the second call only re-runs the ASK query: its returned world is the
first call's world with one more query and the same graph), after which the
graph holds exactly one edge and exactly one linked manifest for that stack.
`id1`/`id2` stand for the fresh `uuid1().hex` values; freshness of `id1`
against the pre-existing manifests is the `hfresh` hypothesis. -/
theorem ensure_and_link_twice (g : GraphState)
    (uuid location branch text id1 id2 : String)
    (hstack : ({ uri := stackUri uuid, uuid := uuid, location := location,
                 branch := branch } : StackNode) ∈ g.stackNodes)
    (hnolink : ensure_stack_has_drc g uuid = false)
    (hfresh : ∀ m ∈ g.manifests, m.uri ≠ drcUri id1) :
    ∃ w1 : World,
      handle_fetch_drc { graph := g, queries := 0, updates := 0, fetches := 0 }
        { clone := .exit 0, compose_file := some text } uuid location branch id1 =
        .ok (w1, .success) ∧
      handle_fetch_drc w1 { clone := .exit 0, compose_file := some text }
        uuid location branch id2 =
        .ok ({ w1 with queries := w1.queries + 1 }, .conflict uuid) ∧
      (edgesFor w1.graph (stackUri uuid)).length = 1 ∧
      (manifestsLinked w1.graph (stackUri uuid)).length = 1 := by
  refine ⟨{ graph :=
              { stackNodes := g.stackNodes,
                manifests := g.manifests ++
                  [{ uri := drcUri id1, uuid := id1, text := text,
                     title := "stack_" ++ uuid ++ "_drc_" ++ id1 }],
                edges := g.edges.filter (fun e => e.1 != stackUri uuid) ++
                  [(stackUri uuid, drcUri id1)] },
            queries := 1, updates := 2, fetches := 1 }, ?_, ?_, ?_, ?_⟩
  · simp [handle_fetch_drc, docker_compose, resolveStack, resolveQueryCount,
          hnolink, run_command, isZeroCode, create_drc_db, update_stack_drc]
  · have hmem : ((stackUri uuid, uuid) : String × String) ∈ uuidTriples
        { stackNodes := g.stackNodes,
          manifests := g.manifests ++
            [{ uri := drcUri id1, uuid := id1, text := text,
               title := "stack_" ++ uuid ++ "_drc_" ++ id1 }],
          edges := g.edges.filter (fun e => e.1 != stackUri uuid) ++
            [(stackUri uuid, drcUri id1)] } := by
      unfold uuidTriples
      exact List.mem_append_left _ (List.mem_map.mpr ⟨_, hstack, rfl⟩)
    have hens := ensure_true_of_edge _ uuid (stackUri uuid) hmem
      (stackUri uuid, drcUri id1)
      (List.mem_append_right _ (List.mem_singleton.mpr rfl)) rfl
    simp [handle_fetch_drc, docker_compose, resolveStack, resolveQueryCount,
          hens, create_drc_db]
  · simp only [edgesFor]
    rw [filter_eq_after_relink g.edges (stackUri uuid) (drcUri id1)]
    rfl
  · simp only [manifestsLinked]
    rw [List.filter_append]
    have hA : g.manifests.filter (fun m =>
        (g.edges.filter (fun e => e.1 != stackUri uuid) ++
          [(stackUri uuid, drcUri id1)]).any
          (fun e => e.1 == stackUri uuid && e.2 == m.uri)) = [] := by
      rw [List.filter_eq_nil_iff]
      intro m hm
      simp only [List.any_append, Bool.or_eq_true, List.any_eq_true,
        List.mem_filter, Bool.and_eq_true, beq_iff_eq, bne_iff_ne, ne_eq,
        List.mem_singleton, not_or, not_exists, not_and]
      constructor
      · rintro e ⟨heMem, heNe⟩ heSu
        exact absurd heSu heNe
      · rintro e rfl heSu heUri
        exact hfresh m hm heUri.symm
    rw [hA]
    have hB : List.filter (fun (m : Manifest) =>
        (g.edges.filter (fun e => e.1 != stackUri uuid) ++
          [(stackUri uuid, drcUri id1)]).any
          (fun e => e.1 == stackUri uuid && e.2 == m.uri))
        ([{ uri := drcUri id1, uuid := id1, text := text,
            title := "stack_" ++ uuid ++ "_drc_" ++ id1 }] : List Manifest) =
        ([{ uri := drcUri id1, uuid := id1, text := text,
            title := "stack_" ++ uuid ++ "_drc_" ++ id1 }] : List Manifest) := by
      simp [List.filter_cons, List.any_append]
    rw [hB]
    rfl

/-- Witness for C1 on the unlinked demo world. -/
theorem ensure_and_link_twice_witness :
    ∃ w1 : World,
      handle_fetch_drc { graph := unlinkedGraph, queries := 0, updates := 0, fetches := 0 }
        { clone := .exit 0, compose_file := some "services:" }
        "u2" "http://example.org/repo.git" "master" "d1" = .ok (w1, .success) ∧
      handle_fetch_drc w1 { clone := .exit 0, compose_file := some "services:" }
        "u2" "http://example.org/repo.git" "master" "d2" =
        .ok ({ w1 with queries := w1.queries + 1 }, .conflict "u2") ∧
      (edgesFor w1.graph (stackUri "u2")).length = 1 ∧
      (manifestsLinked w1.graph (stackUri "u2")).length = 1 :=
  ensure_and_link_twice unlinkedGraph "u2" "http://example.org/repo.git" "master"
    "services:" "d1" "d2" (by decide) (by decide) (by simp [unlinkedGraph])
